import Mathlib

/-! llama_wrapper.c : the flat wrapper layer over the inference engine

The wrapper functions of `llama_wrapper.c` forward to the inference engine
declared in `llama.cpp/include/llama.h`.  The engine itself is not part of the
sources: every engine function a wrapper calls is a parameter of the wrapper's
definition here, so a theorem about a wrapper holds for every engine.

Conventions of the embedding:
* `uint32_t` values are natural numbers, `int32_t` values are integers;
  a conversion between the two is written out (`to_uint32`, `to_int32`);
* `float` values are the rational numbers they denote;
* pointers are addresses (`Ptr`), `0` being `NULL`;
* a C function that mutates the object behind a handle takes the object's
  state and returns the new state next to its result.
-/

set_option linter.unusedVariables false

namespace LlamaWrapper

/-! ## Machine integers -/

/-- Conversion of an integer value to `uint32_t`: reduction modulo 2^32. -/
def to_uint32 (x : Int) : Nat :=
  (x % 4294967296).toNat

/-- Conversion of an integer value to `int32_t`: the two's complement
representative of the value modulo 2^32. -/
def to_int32 (x : Int) : Int :=
  if x % 4294967296 < 2147483648 then x % 4294967296 else x % 4294967296 - 4294967296

/-- An address; `0` is the null pointer. -/
abbrev Ptr := Nat

/-! ## Wrapper records (llama_wrapper.h) -/

/-- The record `llama_model_params_wrapper`. -/
structure llama_model_params_wrapper where
  seed : Nat
  n_ctx : Nat
  n_batch : Nat
  n_threads : Nat
  use_mmap : Bool
  use_mlock : Bool
deriving DecidableEq, Repr

/-- The record `llama_context_params_wrapper`. -/
structure llama_context_params_wrapper where
  seed : Nat
  n_ctx : Nat
  n_batch : Nat
  n_threads : Nat
  temp : ℚ
  top_p : ℚ
  repeat_penalty : ℚ
  repeat_last_n : Nat
  use_mmap : Bool
  use_mlock : Bool
deriving DecidableEq, Repr

/-- The record `llama_sampler_chain_params_wrapper`. -/
structure llama_sampler_chain_params_wrapper where
  no_perf : Bool
deriving DecidableEq, Repr

/-- The record `llama_batch_wrapper`. -/
structure llama_batch_wrapper where
  n_tokens : Int
  token : Ptr
  embd : Ptr
  pos : Ptr
  n_seq_id : Ptr
  seq_id : Ptr
  logits : Ptr
deriving DecidableEq, Repr

/-! ## Engine records (llama.h, not among the sources) -/

/-- Modelled from the spec: the engine's model configuration record
(`struct llama_model_params`), whose declaration is in the engine's header.
The field the wrapper assigns (`n_gpu_layers`) and the two fields that decide
memory mapping and page pinning are explicit; all remaining fields are carried,
untouched, in `rest`. -/
structure llama_model_params (R : Type) where
  n_gpu_layers : Int
  use_mmap : Bool
  use_mlock : Bool
  rest : R
deriving DecidableEq, Repr

/-- Modelled from the spec: the engine's context configuration record
(`struct llama_context_params`), whose declaration is in the engine's header.
The four fields the wrapper assigns are explicit (`n_ctx`, `n_batch` and
`n_seq_max` are `uint32_t`, `n_threads` is `int32_t`); all remaining fields are
carried, untouched, in `rest`. -/
structure llama_context_params (R : Type) where
  n_ctx : Nat
  n_batch : Nat
  n_seq_max : Nat
  n_threads : Int
  rest : R
deriving DecidableEq, Repr

/-- Modelled from the spec: the engine's sampler-chain configuration record
(`struct llama_sampler_chain_params`), whose declaration is in the engine's
header. -/
structure llama_sampler_chain_params where
  no_perf : Bool
deriving DecidableEq, Repr

/-- Modelled from the spec: the engine's token batch (`struct llama_batch`),
whose declaration is in the engine's header; its seven fields are the ones the
designated initialiser of `llama_decode_wrapper` names. -/
structure llama_batch where
  n_tokens : Int
  token : Ptr
  embd : Ptr
  pos : Ptr
  n_seq_id : Ptr
  seq_id : Ptr
  logits : Ptr
deriving DecidableEq, Repr

/-! ## Wrapper functions (llama_wrapper.c) -/

/-- The function `llama_model_default_params_wrapper`: the engine's defaults
are fetched and not used. -/
def llama_model_default_params_wrapper {R : Type}
    (llama_model_default_params : llama_model_params R) : llama_model_params_wrapper :=
  let params := llama_model_default_params
  { seed := 0
    n_ctx := 2048
    n_batch := 512
    n_threads := 4
    use_mmap := true
    use_mlock := false }

/-- The function `llama_context_default_params_wrapper`.  The literals `0.7f`,
`0.9f` and `1.1f` are the binary32 values nearest to 0.7, 0.9 and 1.1. -/
def llama_context_default_params_wrapper {R : Type}
    (llama_context_default_params : llama_context_params R) : llama_context_params_wrapper :=
  let params := llama_context_default_params
  { seed := 0
    n_ctx := params.n_ctx
    n_batch := params.n_batch
    n_threads := to_uint32 params.n_threads
    temp := 11744051 / 16777216
    top_p := 15099494 / 16777216
    repeat_penalty := 9227469 / 8388608
    repeat_last_n := 64
    use_mmap := true
    use_mlock := false }

/-- The function `llama_model_load_from_file_wrapper`. -/
def llama_model_load_from_file_wrapper {P R β : Type}
    (llama_model_default_params : llama_model_params R)
    (llama_model_load_from_file : P → llama_model_params R → β)
    (path : P) (params : llama_model_params_wrapper) : β :=
  let real_params := llama_model_default_params
  let real_params := { real_params with n_gpu_layers := 0 }
  llama_model_load_from_file path real_params

/-- The function `llama_init_from_model_wrapper`. -/
def llama_init_from_model_wrapper {M R β : Type}
    (llama_context_default_params : llama_context_params R)
    (llama_init_from_model : M → llama_context_params R → β)
    (model : M) (params : llama_context_params_wrapper) : β :=
  let real_params := llama_context_default_params
  let real_params := { real_params with n_ctx := params.n_ctx }
  let real_params := { real_params with n_batch := params.n_batch }
  let real_params := { real_params with n_threads := to_int32 params.n_threads }
  let real_params := { real_params with n_seq_max := 1 }
  llama_init_from_model model real_params

/-- The function `llama_tokenize_wrapper`.  The engine's tokenizer takes the
output buffer's contents and returns them, updated, next to its result. -/
def llama_tokenize_wrapper {V T B : Type}
    (llama_tokenize : V → T → Int → B → Int → Bool → Bool → Int × B)
    (vocab : V) (text : T) (text_len : Int) (tokens : B) (n_tokens_max : Int)
    (add_special : Bool) (parse_special : Bool) : Int × B :=
  llama_tokenize vocab text text_len tokens n_tokens_max add_special parse_special

/-- The function `llama_batch_get_one_wrapper`. -/
def llama_batch_get_one_wrapper
    (llama_batch_get_one : Ptr → Int → llama_batch)
    (tokens : Ptr) (n_tokens : Int) : llama_batch_wrapper :=
  let batch := llama_batch_get_one tokens n_tokens
  { n_tokens := batch.n_tokens
    token := batch.token
    embd := batch.embd
    pos := batch.pos
    n_seq_id := batch.n_seq_id
    seq_id := batch.seq_id
    logits := batch.logits }

/-- The function `llama_decode_wrapper`.  The engine's decode takes the
context's state and returns the new state next to its status. -/
def llama_decode_wrapper {C : Type}
    (llama_decode : C → llama_batch → Int × C)
    (ctx : C) (batch : llama_batch_wrapper) : Int × C :=
  let real_batch : llama_batch :=
    { n_tokens := batch.n_tokens
      token := batch.token
      embd := batch.embd
      pos := batch.pos
      n_seq_id := batch.n_seq_id
      seq_id := batch.seq_id
      logits := batch.logits }
  llama_decode ctx real_batch

/-- The function `llama_token_bos_wrapper`. -/
def llama_token_bos_wrapper : Int := 1

/-- The function `llama_token_eos_wrapper`. -/
def llama_token_eos_wrapper : Int := 2

/-- The function `llama_token_nl_wrapper`. -/
def llama_token_nl_wrapper : Int := 13

/-- The function `llama_sampler_chain_default_params_wrapper`. -/
def llama_sampler_chain_default_params_wrapper
    (llama_sampler_chain_default_params : llama_sampler_chain_params) :
    llama_sampler_chain_params_wrapper :=
  let params := llama_sampler_chain_default_params
  { no_perf := params.no_perf }

/-- The function `llama_sampler_chain_init_wrapper`. -/
def llama_sampler_chain_init_wrapper {S : Type}
    (llama_sampler_chain_default_params : llama_sampler_chain_params)
    (llama_sampler_chain_init : llama_sampler_chain_params → S)
    (params : llama_sampler_chain_params_wrapper) : S :=
  let real_params := llama_sampler_chain_default_params
  let real_params := { real_params with no_perf := params.no_perf }
  llama_sampler_chain_init real_params

/-- The function `llama_sampler_chain_add_wrapper`.  The engine's call mutates
the chain; it takes the chain's state and returns the new state. -/
def llama_sampler_chain_add_wrapper {S G : Type}
    (llama_sampler_chain_add : S → G → S)
    (chain : S) (smpl : G) : S :=
  llama_sampler_chain_add chain smpl

/-- The function `llama_sampler_init_top_k_wrapper`. -/
def llama_sampler_init_top_k_wrapper {G : Type}
    (llama_sampler_init_top_k : Int → G) (k : Int) : G :=
  llama_sampler_init_top_k k

/-- The function `llama_sampler_init_dist_wrapper`. -/
def llama_sampler_init_dist_wrapper {G : Type}
    (llama_sampler_init_dist : Nat → G) (seed : Nat) : G :=
  llama_sampler_init_dist seed

/-- The function `llama_sampler_sample_wrapper`. -/
def llama_sampler_sample_wrapper {S C β : Type}
    (llama_sampler_sample : S → C → Int → β)
    (smpl : S) (ctx : C) (idx : Int) : β :=
  llama_sampler_sample smpl ctx idx

/-! ## The engine's decode and sampler chain, modelled from the spec

The engine's own code is not among the sources.  Where a property is decided
by the engine and not by the wrapper, the engine operation is modelled from the
words of the specification (sections 3, 4.3, 4.4 and 4.5). -/

namespace Spec

/-- Modelled from the spec: the state of a Context (section 3), the object
behind `struct llama_context *`: its configured capacity, batch width and
thread count, the number of positions held in the key/value cache, and the
logits of the most recent decode, one row per token whose logits were wanted. -/
structure llama_context (α : Type) where
  n_ctx : Nat
  n_batch : Nat
  n_threads : Int
  cache_len : Nat
  logits : List (List α)
deriving DecidableEq, Repr

/-- Modelled from the spec: the engine's `llama_decode` (section 4.4, decode).
A batch whose positions would run past the configured capacity is refused with
a positive status and the context is left as it was; otherwise the forward
computation (the parameter `forward`, the tensor engine) runs: when it fails the
status is negative and the context is left as it was, when it succeeds the
cache advances by `batch.n_tokens` positions, the logits become available and
the status is `0`. -/
def llama_decode {α : Type}
    (forward : llama_context α → llama_batch → Option (List (List α)))
    (ctx : llama_context α) (batch : llama_batch) : Int × llama_context α :=
  if ctx.n_ctx < ctx.cache_len + batch.n_tokens.toNat then
    (1, ctx)
  else
    match forward ctx batch with
    | none => (-1, ctx)
    | some out =>
      (0, { ctx with cache_len := ctx.cache_len + batch.n_tokens.toNat, logits := out })

/-- Modelled from the spec: one candidate of the distribution a sampler chain
works on, a token identifier with its logit. -/
structure llama_token_data (α : Type) where
  id : Int
  logit : α
deriving DecidableEq, Repr

/-- Modelled from the spec: the candidate set handed from stage to stage
(section 3, Sampler Chain), with the token the terminal stage has drawn. -/
structure llama_token_data_array (α : Type) where
  data : List (llama_token_data α)
  selected : Option Int
deriving DecidableEq, Repr

/-- Modelled from the spec: the stages of section 4.5 that are used here,
`top_k(k)` and `distribution_draw(seed)`. -/
inductive llama_sampler_stage where
  | top_k (k : Int)
  | dist (seed : Nat)
deriving DecidableEq, Repr

/-- Modelled from the spec: a sampler chain (section 3), an ordered list of
stages with its performance-tracking option. -/
structure llama_sampler_chain where
  no_perf : Bool
  stages : List llama_sampler_stage
deriving DecidableEq, Repr

/-- Modelled from the spec: `create_chain(params)` returns an initially empty
chain. -/
def llama_sampler_chain_init (params : llama_sampler_chain_params) : llama_sampler_chain :=
  { no_perf := params.no_perf, stages := [] }

/-- Modelled from the spec: `add_stage(chain, stage)` appends a stage. -/
def llama_sampler_chain_add (chain : llama_sampler_chain) (smpl : llama_sampler_stage) :
    llama_sampler_chain :=
  { chain with stages := chain.stages ++ [smpl] }

/-- Modelled from the spec: the stage constructor `top_k(k)`. -/
def llama_sampler_init_top_k (k : Int) : llama_sampler_stage :=
  llama_sampler_stage.top_k k

/-- Modelled from the spec: the stage constructor `distribution_draw(seed)`. -/
def llama_sampler_init_dist (seed : Nat) : llama_sampler_stage :=
  llama_sampler_stage.dist seed

/-- Modelled from the spec: what one stage does to the candidate set.
`top_k(k)` retains only the `k` highest candidates, dropping the rest.
`distribution_draw(seed)` draws one of the current candidates; which one is
decided by the seeded pseudo-random source `rng`, a parameter, that yields a
number from the seed and the current distribution. -/
def llama_sampler_apply {α : Type} [LinearOrder α]
    (rng : Nat → List (llama_token_data α) → Nat)
    (smpl : llama_sampler_stage) (cur_p : llama_token_data_array α) :
    llama_token_data_array α :=
  match smpl with
  | llama_sampler_stage.top_k k =>
    { cur_p with
      data := (cur_p.data.insertionSort (fun a b => b.logit ≤ a.logit)).take k.toNat }
  | llama_sampler_stage.dist seed =>
    { cur_p with
      selected :=
        (cur_p.data.get? (rng seed cur_p.data % cur_p.data.length)).map (fun c => c.id) }

/-- Modelled from the spec: `sample(chain, context, logits_index)` runs every
stage in order against the logits at `logits_index` within the context's most
recent decode output and returns the chosen token; there is no token when the
context has no logits at that index or no stage has drawn one. -/
def llama_sampler_sample {α : Type} [LinearOrder α]
    (rng : Nat → List (llama_token_data α) → Nat)
    (smpl : llama_sampler_chain) (ctx : llama_context α) (idx : Int) : Option Int :=
  if idx < 0 then
    none
  else
    match ctx.logits.get? idx.toNat with
    | none => none
    | some row =>
      let cur_p : llama_token_data_array α :=
        { data := row.enum.map (fun p => { id := (p.1 : Int), logit := p.2 })
          selected := none }
      (smpl.stages.foldl (fun c s => llama_sampler_apply rng s c) cur_p).selected

end Spec

/-! ## The chain with `top_k(1)` before `distribution_draw` -/

/-- The sampler chain obtained through the wrappers, over the engine's chain
operations as modelled from the spec, by creating a chain and appending
`top_k(1)` and then `distribution_draw(seed)`. -/
def top_k_one_dist_chain (defaults : llama_sampler_chain_params)
    (params : llama_sampler_chain_params_wrapper) (seed : Nat) : Spec.llama_sampler_chain :=
  let chain :=
    llama_sampler_chain_init_wrapper defaults Spec.llama_sampler_chain_init params
  let chain :=
    llama_sampler_chain_add_wrapper Spec.llama_sampler_chain_add chain
      (llama_sampler_init_top_k_wrapper Spec.llama_sampler_init_top_k 1)
  llama_sampler_chain_add_wrapper Spec.llama_sampler_chain_add chain
    (llama_sampler_init_dist_wrapper Spec.llama_sampler_init_dist seed)

/-! ## Concrete values used to evaluate the definitions -/

/-- An engine default model configuration with the engine's stock settings:
memory mapping on, page pinning off. -/
def sample_model_defaults : llama_model_params Unit :=
  { n_gpu_layers := 999, use_mmap := true, use_mlock := false, rest := () }

/-- An engine default context configuration. -/
def sample_context_defaults : llama_context_params Unit :=
  { n_ctx := 512, n_batch := 2048, n_seq_max := 1, n_threads := 4, rest := () }

/-- Wrapper model parameters asking for no memory mapping and for pinning. -/
def sample_model_params : llama_model_params_wrapper :=
  { seed := 0, n_ctx := 2048, n_batch := 512, n_threads := 4,
    use_mmap := false, use_mlock := true }

/-- Wrapper context parameters. -/
def sample_context_params : llama_context_params_wrapper :=
  { seed := 7, n_ctx := 2048, n_batch := 512, n_threads := 4,
    temp := 1, top_p := 1, repeat_penalty := 1, repeat_last_n := 64,
    use_mmap := true, use_mlock := false }

/-- Wrapper context parameters asking for 2^31 threads, a value of the
wrapper's `uint32_t` field that the engine's `int32_t` field cannot hold. -/
def sample_context_params_many_threads : llama_context_params_wrapper :=
  { sample_context_params with n_threads := 2147483648 }

/-- A context with capacity 8 holding 6 positions and one row of logits. -/
def sample_context : Spec.llama_context Int :=
  { n_ctx := 8, n_batch := 4, n_threads := 4, cache_len := 6, logits := [[3, 9, -2, 5]] }

/-- A batch of three tokens. -/
def sample_batch : llama_batch_wrapper :=
  { n_tokens := 3, token := 4096, embd := 0, pos := 0, n_seq_id := 0, seq_id := 0, logits := 0 }

/-- A forward computation that always succeeds with one row of logits. -/
def sample_forward (ctx : Spec.llama_context Int) (batch : llama_batch) :
    Option (List (List Int)) :=
  some [[1, 2, 3, 4]]

/-- A pseudo-random source: the seed itself. -/
def sample_rng (seed : Nat) (cur : List (Spec.llama_token_data Int)) : Nat :=
  seed

/-- An engine tokenizer over a one-token-per-byte vocabulary: it writes the
bytes as tokens when they fit and otherwise answers minus the size needed. -/
def sample_tokenize (vocab : Unit) (text : List Nat) (text_len : Int) (tokens : List Int)
    (n_tokens_max : Int) (add_special : Bool) (parse_special : Bool) : Int × List Int :=
  if (text.length : Int) ≤ n_tokens_max then
    ((text.length : Int), text.map (fun b => (b : Int)))
  else
    (-(text.length : Int), tokens)

/-- An engine single-sequence batch constructor: the token array and count,
with every other array left for the engine to fill in. -/
def sample_batch_get_one (tokens : Ptr) (n_tokens : Int) : llama_batch :=
  { n_tokens := n_tokens, token := tokens, embd := 0, pos := 0, n_seq_id := 0,
    seq_id := 0, logits := 0 }

/-! ## Conversions between `uint32_t` and `int32_t` -/

/-- A value below 2^31 is unchanged by the conversion to `int32_t`. -/
theorem to_int32_of_lt (n : Nat) (h : n < 2147483648) : to_int32 (n : Int) = (n : Int) := by
  unfold to_int32
  split <;> omega

/-- A `uint32_t` value from 2^31 on is lowered by 2^32 by the conversion to
`int32_t`. -/
theorem to_int32_of_ge (n : Nat) (h1 : 2147483648 ≤ n) (h2 : n < 4294967296) :
    to_int32 (n : Int) = (n : Int) - 4294967296 := by
  unfold to_int32
  split <;> omega

/-- Reading an `int32_t` that was converted from a natural number back as
`uint32_t` gives the number modulo 2^32: the 32-bit word is the same. -/
theorem to_uint32_to_int32 (n : Nat) : to_uint32 (to_int32 (n : Int)) = n % 4294967296 := by
  unfold to_uint32 to_int32
  split <;> omega

/-- An `int32_t` value survives the conversion to `uint32_t` and back. -/
theorem to_int32_to_uint32 (x : Int) (h1 : -2147483648 ≤ x) (h2 : x < 2147483648) :
    to_int32 ((to_uint32 x : Nat) : Int) = x := by
  unfold to_uint32 to_int32
  split <;> omega

/-! ## Context creation -/

/-- C1 (amended): `llama_init_from_model_wrapper(model, p)` calls the engine's
context constructor on the same model with the engine's default configuration
in which exactly four fields are replaced: `n_ctx` by `p.n_ctx`, `n_batch` by
`p.n_batch`, `n_threads` by `p.n_threads` converted to the engine's `int32_t`
field, and `n_seq_max` by `1`; every other field keeps its default.  The
converted thread count is `p.n_threads` itself when `p.n_threads < 2^31` and
`p.n_threads - 2^32` when `2^31 ≤ p.n_threads < 2^32`; read back as `uint32_t`
it is `p.n_threads` modulo 2^32.  The sequence limit is `1` whatever `p` is,
and the call does not depend on `seed`, `temp`, `top_p`, `repeat_penalty`,
`repeat_last_n`, `use_mmap` or `use_mlock`. -/
theorem llama_init_from_model_wrapper_config {M R β : Type}
    (d : llama_context_params R) (init : M → llama_context_params R → β)
    (model : M) (p : llama_context_params_wrapper) :
    llama_init_from_model_wrapper d init model p
        = init model
            { n_ctx := p.n_ctx, n_batch := p.n_batch, n_seq_max := 1,
              n_threads := to_int32 p.n_threads, rest := d.rest }
      ∧ to_uint32 (to_int32 p.n_threads) = p.n_threads % 4294967296
      ∧ (p.n_threads < 2147483648 →
          llama_init_from_model_wrapper d init model p
            = init model
                { n_ctx := p.n_ctx, n_batch := p.n_batch, n_seq_max := 1,
                  n_threads := (p.n_threads : Int), rest := d.rest })
      ∧ (2147483648 ≤ p.n_threads → p.n_threads < 4294967296 →
          llama_init_from_model_wrapper d init model p
            = init model
                { n_ctx := p.n_ctx, n_batch := p.n_batch, n_seq_max := 1,
                  n_threads := (p.n_threads : Int) - 4294967296, rest := d.rest })
      ∧ (∀ seed temp top_p repeat_penalty repeat_last_n use_mmap use_mlock,
          llama_init_from_model_wrapper d init model
              { p with seed := seed, temp := temp, top_p := top_p,
                       repeat_penalty := repeat_penalty, repeat_last_n := repeat_last_n,
                       use_mmap := use_mmap, use_mlock := use_mlock }
            = llama_init_from_model_wrapper d init model p) := by
  refine ⟨?_, to_uint32_to_int32 p.n_threads, ?_, ?_, ?_⟩
  · simp only [llama_init_from_model_wrapper]
  · intro h
    simp only [llama_init_from_model_wrapper, to_int32_of_lt p.n_threads h]
  · intro h1 h2
    simp only [llama_init_from_model_wrapper, to_int32_of_ge p.n_threads h1 h2]
  · intro seed temp top_p repeat_penalty repeat_last_n use_mmap use_mlock
    simp only [llama_init_from_model_wrapper]

/-- C1 (amended), at concrete inputs: with defaults `(512, 2048, 1, 4)`,
parameters asking for `n_ctx = 2048`, `n_batch = 512`, `n_threads = 4` reach
the engine as `(2048, 512, 1, 4)`, and the same parameters with
`n_threads = 2^31` reach it as `(2048, 512, 1, 2^31 - 2^32)`. -/
theorem llama_init_from_model_wrapper_config_witness :
    sample_context_params.n_threads < 2147483648
      ∧ llama_init_from_model_wrapper sample_context_defaults Prod.mk (1 : Nat)
            sample_context_params
          = ((1 : Nat),
              ({ n_ctx := 2048, n_batch := 512, n_seq_max := 1, n_threads := 4, rest := () } :
                llama_context_params Unit))
      ∧ 2147483648 ≤ sample_context_params_many_threads.n_threads
      ∧ sample_context_params_many_threads.n_threads < 4294967296
      ∧ llama_init_from_model_wrapper sample_context_defaults Prod.mk (1 : Nat)
            sample_context_params_many_threads
          = ((1 : Nat),
              ({ n_ctx := 2048, n_batch := 512, n_seq_max := 1,
                 n_threads := ((2147483648 : Nat) : Int) - 4294967296, rest := () } :
                llama_context_params Unit)) :=
  ⟨by decide,
    (llama_init_from_model_wrapper_config sample_context_defaults Prod.mk (1 : Nat)
        sample_context_params).2.2.1 (by decide),
    by decide, by decide,
    (llama_init_from_model_wrapper_config sample_context_defaults Prod.mk (1 : Nat)
        sample_context_params_many_threads).2.2.2.1 (by decide) (by decide)⟩

/-- C1 as stated fails: for parameters with `n_threads = 2147483648`, a value
of the wrapper's `uint32_t` field, the configuration handed to the engine has
`n_threads = -2147483648`, which is not `p.n_threads`. -/
theorem llama_init_from_model_wrapper_n_threads_counterexample :
    sample_context_params_many_threads.n_threads = 2147483648
      ∧ (llama_init_from_model_wrapper sample_context_defaults Prod.mk (1 : Nat)
            sample_context_params_many_threads).2.n_threads = -2147483648
      ∧ (llama_init_from_model_wrapper sample_context_defaults Prod.mk (1 : Nat)
            sample_context_params_many_threads).2.n_threads
          ≠ (sample_context_params_many_threads.n_threads : Int) := by
  have h : (llama_init_from_model_wrapper sample_context_defaults Prod.mk (1 : Nat)
      sample_context_params_many_threads).2.n_threads = -2147483648 := by
    simp only [llama_init_from_model_wrapper, sample_context_params_many_threads]
    unfold to_int32
    norm_num
  refine ⟨rfl, h, ?_⟩
  rw [h]
  simp only [sample_context_params_many_threads]
  norm_num

/-- C9: the defaults returned by `llama_context_default_params_wrapper()` take
`n_ctx`, `n_batch` and `n_threads` from the engine's default configuration and
set `seed = 0`, `repeat_last_n = 64`, `use_mmap = true`, `use_mlock = false`;
creating a context from the unmodified defaults hands the engine its own
default configuration with only `n_seq_max` replaced by `1`.  The engine's
default thread count is an `int32_t` value (the hypotheses) and survives the
passage through the wrapper's `uint32_t` field. -/
theorem llama_context_default_params_wrapper_round_trip {M R β : Type}
    (d : llama_context_params R) (init : M → llama_context_params R → β) (model : M)
    (h1 : -2147483648 ≤ d.n_threads) (h2 : d.n_threads < 2147483648) :
    (llama_context_default_params_wrapper d).n_ctx = d.n_ctx
      ∧ (llama_context_default_params_wrapper d).n_batch = d.n_batch
      ∧ (llama_context_default_params_wrapper d).n_threads = to_uint32 d.n_threads
      ∧ (llama_context_default_params_wrapper d).seed = 0
      ∧ (llama_context_default_params_wrapper d).repeat_last_n = 64
      ∧ (llama_context_default_params_wrapper d).use_mmap = true
      ∧ (llama_context_default_params_wrapper d).use_mlock = false
      ∧ llama_init_from_model_wrapper d init model (llama_context_default_params_wrapper d)
          = init model { d with n_seq_max := 1 } := by
  refine ⟨rfl, rfl, rfl, rfl, rfl, rfl, rfl, ?_⟩
  have h : to_int32 ((to_uint32 d.n_threads : Nat) : Int) = d.n_threads :=
    to_int32_to_uint32 d.n_threads h1 h2
  simp only [llama_init_from_model_wrapper, llama_context_default_params_wrapper, h]

/-- C9, at a concrete input: the defaults `(512, 2048, 1, 4)` come back to the
engine unchanged. -/
theorem llama_context_default_params_wrapper_round_trip_witness :
    llama_init_from_model_wrapper sample_context_defaults Prod.mk (1 : Nat)
        (llama_context_default_params_wrapper sample_context_defaults)
      = ((1 : Nat), { sample_context_defaults with n_seq_max := 1 }) :=
  (llama_context_default_params_wrapper_round_trip sample_context_defaults Prod.mk (1 : Nat)
      (by decide) (by decide)).2.2.2.2.2.2.2

/-! ## Model loading -/

/-- C10: `llama_model_load_from_file_wrapper` hands the engine the same path
and the engine's default model configuration with `n_gpu_layers` set to `0` and
nothing else changed; the call is the same for any two parameter values. -/
theorem llama_model_load_from_file_wrapper_ignores_params {P R β : Type}
    (d : llama_model_params R) (load : P → llama_model_params R → β) (path : P)
    (p1 p2 : llama_model_params_wrapper) :
    llama_model_load_from_file_wrapper d load path p1
        = load path
            { n_gpu_layers := 0, use_mmap := d.use_mmap, use_mlock := d.use_mlock,
              rest := d.rest }
      ∧ llama_model_load_from_file_wrapper d load path p1
          = llama_model_load_from_file_wrapper d load path p2 :=
  ⟨rfl, rfl⟩

/-- C2, evaluated on the code: with engine defaults of mapping on and pinning
off, parameters asking for `use_mmap = false` and `use_mlock = true` reach the
engine as mapping on and pinning off. -/
theorem llama_model_load_from_file_wrapper_drops_mmap_mlock :
    sample_model_params.use_mmap = false
      ∧ sample_model_params.use_mlock = true
      ∧ llama_model_load_from_file_wrapper sample_model_defaults Prod.mk (4096 : Ptr)
            sample_model_params
          = ((4096 : Ptr),
              ({ n_gpu_layers := 0, use_mmap := true, use_mlock := false, rest := () } :
                llama_model_params Unit)) :=
  ⟨rfl, rfl, rfl⟩

/-- Whatever the engine's defaults are, some parameter value has its
`use_mmap` and `use_mlock` not reflected in the configuration the engine gets. -/
theorem llama_model_load_from_file_wrapper_some_params_dropped {R : Type}
    (d : llama_model_params R) (path : Ptr) :
    ∃ p : llama_model_params_wrapper,
      (llama_model_load_from_file_wrapper d Prod.mk path p).2.use_mmap ≠ p.use_mmap
        ∧ (llama_model_load_from_file_wrapper d Prod.mk path p).2.use_mlock ≠ p.use_mlock := by
  refine ⟨{ sample_model_params with use_mmap := !d.use_mmap, use_mlock := !d.use_mlock }, ?_, ?_⟩
  · show d.use_mmap ≠ !d.use_mmap
    cases d.use_mmap <;> decide
  · show d.use_mlock ≠ !d.use_mlock
    cases d.use_mlock <;> decide

/-! ## Token identifiers -/

/-- C7: the beginning-of-sequence, end-of-sequence and newline identifiers are
constants, taking no model or vocabulary: `1`, `2` and `13`, pairwise distinct. -/
theorem llama_token_wrappers_constant :
    llama_token_bos_wrapper = 1
      ∧ llama_token_eos_wrapper = 2
      ∧ llama_token_nl_wrapper = 13
      ∧ llama_token_bos_wrapper ≠ llama_token_eos_wrapper
      ∧ llama_token_bos_wrapper ≠ llama_token_nl_wrapper
      ∧ llama_token_eos_wrapper ≠ llama_token_nl_wrapper := by
  refine ⟨rfl, rfl, rfl, ?_, ?_, ?_⟩ <;> decide

/-! ## Batches and decode -/

/-- C3: `llama_decode_wrapper(ctx, b)` returns what the engine's decode
returns for `ctx` and the engine batch whose seven fields equal those of `b`;
the status is not altered, so it is zero, negative or positive exactly when the
engine's status is. -/
theorem llama_decode_wrapper_forwards {C : Type}
    (decode : C → llama_batch → Int × C) (ctx : C) (b : llama_batch_wrapper)
    (rb : llama_batch)
    (h_n_tokens : rb.n_tokens = b.n_tokens) (h_token : rb.token = b.token)
    (h_embd : rb.embd = b.embd) (h_pos : rb.pos = b.pos)
    (h_n_seq_id : rb.n_seq_id = b.n_seq_id) (h_seq_id : rb.seq_id = b.seq_id)
    (h_logits : rb.logits = b.logits) :
    llama_decode_wrapper decode ctx b = decode ctx rb
      ∧ ((llama_decode_wrapper decode ctx b).1 = 0 ↔ (decode ctx rb).1 = 0)
      ∧ ((llama_decode_wrapper decode ctx b).1 < 0 ↔ (decode ctx rb).1 < 0)
      ∧ (0 < (llama_decode_wrapper decode ctx b).1 ↔ 0 < (decode ctx rb).1) := by
  have h : llama_decode_wrapper decode ctx b = decode ctx rb := by
    cases rb
    simp only at h_n_tokens h_token h_embd h_pos h_n_seq_id h_seq_id h_logits
    subst h_n_tokens h_token h_embd h_pos h_n_seq_id h_seq_id h_logits
    rfl
  rw [h]
  exact ⟨rfl, Iff.rfl, Iff.rfl, Iff.rfl⟩

/-- C3, at a concrete input: a batch of three tokens against a context with
two free positions gives the engine's overflow status `1`. -/
theorem llama_decode_wrapper_forwards_witness :
    llama_decode_wrapper (Spec.llama_decode sample_forward) sample_context sample_batch
      = Spec.llama_decode sample_forward sample_context
          { n_tokens := 3, token := 4096, embd := 0, pos := 0, n_seq_id := 0, seq_id := 0,
            logits := 0 } :=
  (llama_decode_wrapper_forwards (Spec.llama_decode sample_forward) sample_context sample_batch
      { n_tokens := 3, token := 4096, embd := 0, pos := 0, n_seq_id := 0, seq_id := 0,
        logits := 0 }
      rfl rfl rfl rfl rfl rfl rfl).1

/-- C4: each of the seven fields of `llama_batch_get_one_wrapper(tokens, n)`
equals the field of the engine's single-sequence batch for `(tokens, n)`, and
decoding the wrapper batch is decoding the engine's own batch. -/
theorem llama_batch_get_one_wrapper_lossless {C : Type}
    (get_one : Ptr → Int → llama_batch) (decode : C → llama_batch → Int × C)
    (ctx : C) (tokens : Ptr) (n : Int) :
    (llama_batch_get_one_wrapper get_one tokens n).n_tokens = (get_one tokens n).n_tokens
      ∧ (llama_batch_get_one_wrapper get_one tokens n).token = (get_one tokens n).token
      ∧ (llama_batch_get_one_wrapper get_one tokens n).embd = (get_one tokens n).embd
      ∧ (llama_batch_get_one_wrapper get_one tokens n).pos = (get_one tokens n).pos
      ∧ (llama_batch_get_one_wrapper get_one tokens n).n_seq_id = (get_one tokens n).n_seq_id
      ∧ (llama_batch_get_one_wrapper get_one tokens n).seq_id = (get_one tokens n).seq_id
      ∧ (llama_batch_get_one_wrapper get_one tokens n).logits = (get_one tokens n).logits
      ∧ llama_decode_wrapper decode ctx (llama_batch_get_one_wrapper get_one tokens n)
          = decode ctx (get_one tokens n) :=
  ⟨rfl, rfl, rfl, rfl, rfl, rfl, rfl, rfl⟩

/-- C5: over the engine's decode as modelled from the spec, a batch whose
positions would run past the configured capacity gets a positive status and
leaves the context, hence its cache length, as it was; and every decode either
returns `0` having advanced the cache by `batch.n_tokens` positions or returns
a nonzero status and leaves the context exactly as it was. -/
theorem llama_decode_wrapper_no_partial_commit {α : Type}
    (forward : Spec.llama_context α → llama_batch → Option (List (List α)))
    (ctx : Spec.llama_context α) (b : llama_batch_wrapper) :
    (ctx.n_ctx < ctx.cache_len + b.n_tokens.toNat →
        0 < (llama_decode_wrapper (Spec.llama_decode forward) ctx b).1
          ∧ (llama_decode_wrapper (Spec.llama_decode forward) ctx b).2 = ctx
          ∧ (llama_decode_wrapper (Spec.llama_decode forward) ctx b).2.cache_len
              = ctx.cache_len)
      ∧ (((llama_decode_wrapper (Spec.llama_decode forward) ctx b).1 = 0
            ∧ (llama_decode_wrapper (Spec.llama_decode forward) ctx b).2.cache_len
                = ctx.cache_len + b.n_tokens.toNat)
          ∨ ((llama_decode_wrapper (Spec.llama_decode forward) ctx b).1 ≠ 0
            ∧ (llama_decode_wrapper (Spec.llama_decode forward) ctx b).2 = ctx)) := by
  refine ⟨?_, ?_⟩
  · intro h
    simp [llama_decode_wrapper, Spec.llama_decode, h]
  · simp only [llama_decode_wrapper, Spec.llama_decode]
    split
    · right
      exact ⟨one_ne_zero, rfl⟩
    · split
      · right
        exact ⟨by simp, rfl⟩
      · left
        exact ⟨rfl, rfl⟩

/-- C5, at concrete inputs: three tokens against a context of capacity 8
holding 6 positions are refused with status `1` and the context is unchanged;
two tokens are accepted with status `0` and the cache holds 8 positions. -/
theorem llama_decode_wrapper_no_partial_commit_witness :
    sample_context.n_ctx < sample_context.cache_len + sample_batch.n_tokens.toNat
      ∧ (0 < (llama_decode_wrapper (Spec.llama_decode sample_forward) sample_context
                sample_batch).1
          ∧ (llama_decode_wrapper (Spec.llama_decode sample_forward) sample_context
                sample_batch).2 = sample_context
          ∧ (llama_decode_wrapper (Spec.llama_decode sample_forward) sample_context
                sample_batch).2.cache_len = 6)
      ∧ (llama_decode_wrapper (Spec.llama_decode sample_forward) sample_context
            { sample_batch with n_tokens := 2 }).1 = 0
      ∧ (llama_decode_wrapper (Spec.llama_decode sample_forward) sample_context
            { sample_batch with n_tokens := 2 }).2.cache_len = 8 :=
  ⟨by decide,
    (llama_decode_wrapper_no_partial_commit sample_forward sample_context sample_batch).1
      (by decide),
    by decide, by decide⟩

/-! ## Tokenization -/

/-- C6: `llama_tokenize_wrapper` returns the engine tokenizer's result for the
same seven arguments in the same order; a negative required-size signal `-k`
of the engine therefore reaches the caller as `-k`, from which `k` is
recovered, and the result is negative exactly when the engine's is. -/
theorem llama_tokenize_wrapper_forwards {V T B : Type}
    (tokenize : V → T → Int → B → Int → Bool → Bool → Int × B)
    (vocab : V) (text : T) (text_len : Int) (tokens : B) (n_tokens_max : Int)
    (add_special parse_special : Bool) :
    llama_tokenize_wrapper tokenize vocab text text_len tokens n_tokens_max
          add_special parse_special
        = tokenize vocab text text_len tokens n_tokens_max add_special parse_special
      ∧ ((llama_tokenize_wrapper tokenize vocab text text_len tokens n_tokens_max
              add_special parse_special).1 < 0
          ↔ (tokenize vocab text text_len tokens n_tokens_max add_special parse_special).1 < 0)
      ∧ ∀ k : Int,
          (tokenize vocab text text_len tokens n_tokens_max add_special parse_special).1 = -k →
            (llama_tokenize_wrapper tokenize vocab text text_len tokens n_tokens_max
                add_special parse_special).1 = -k
              ∧ -(llama_tokenize_wrapper tokenize vocab text text_len tokens n_tokens_max
                    add_special parse_special).1 = k := by
  refine ⟨rfl, Iff.rfl, ?_⟩
  intro k hk
  have hw : (llama_tokenize_wrapper tokenize vocab text text_len tokens n_tokens_max
      add_special parse_special).1 = -k := hk
  exact ⟨hw, by rw [hw]; exact neg_neg k⟩

/-- C6, at a concrete input: five bytes into a buffer of capacity two give
`-5`, and the required size `5` is read off the result. -/
theorem llama_tokenize_wrapper_forwards_witness :
    (llama_tokenize_wrapper sample_tokenize () [104, 101, 108, 108, 111] 5 [0, 0] 2
        true false).1 = -5
      ∧ -(llama_tokenize_wrapper sample_tokenize () [104, 101, 108, 108, 111] 5 [0, 0] 2
            true false).1 = 5 :=
  (llama_tokenize_wrapper_forwards sample_tokenize () [104, 101, 108, 108, 111] 5 [0, 0] 2
      true false).2.2 5 (by decide)

/-! ## Sampling -/

/-- The chain of `top_k_one_dist_chain` consists of the two stages, in append
order. -/
theorem top_k_one_dist_chain_stages (defaults : llama_sampler_chain_params)
    (params : llama_sampler_chain_params_wrapper) (seed : Nat) :
    (top_k_one_dist_chain defaults params seed).stages
      = [Spec.llama_sampler_stage.top_k 1, Spec.llama_sampler_stage.dist seed] :=
  rfl

/-- After `top_k(1)`, the draw selects the first candidate in descending order
of logit, if there is one, whatever the seed and the pseudo-random source. -/
theorem top_k_one_dist_selected {α : Type} [LinearOrder α]
    (rng : Nat → List (Spec.llama_token_data α) → Nat) (seed : Nat)
    (cur_p : Spec.llama_token_data_array α) :
    (Spec.llama_sampler_apply rng (Spec.llama_sampler_stage.dist seed)
        (Spec.llama_sampler_apply rng (Spec.llama_sampler_stage.top_k 1) cur_p)).selected
      = ((cur_p.data.insertionSort (fun a b => b.logit ≤ a.logit)).head?).map
          (fun c => c.id) := by
  simp only [Spec.llama_sampler_apply]
  have h1 : (1 : Int).toNat = 1 := rfl
  rw [h1]
  cases cur_p.data.insertionSort (fun a b => b.logit ≤ a.logit) with
  | nil => simp
  | cons m rest => simp [Nat.mod_one]

/-- The first element of a nonempty candidate list sorted by descending logit
is a candidate of the list whose logit is at least every candidate's. -/
theorem insertionSort_head_highest {α : Type} [LinearOrder α]
    (l : List (Spec.llama_token_data α)) (hne : l ≠ []) :
    ∃ m, (l.insertionSort (fun a b => b.logit ≤ a.logit)).head? = some m
      ∧ m ∈ l ∧ ∀ c ∈ l, c.logit ≤ m.logit := by
  haveI : IsTotal (Spec.llama_token_data α) (fun a b => b.logit ≤ a.logit) :=
    ⟨fun a b => le_total b.logit a.logit⟩
  haveI : IsTrans (Spec.llama_token_data α) (fun a b => b.logit ≤ a.logit) :=
    ⟨fun a b c hab hbc => le_trans hbc hab⟩
  have hperm := List.perm_insertionSort (fun a b : Spec.llama_token_data α => b.logit ≤ a.logit) l
  have hsorted :=
    List.sorted_insertionSort (fun a b : Spec.llama_token_data α => b.logit ≤ a.logit) l
  cases hs : l.insertionSort (fun a b => b.logit ≤ a.logit) with
  | nil =>
    rw [hs] at hperm
    exact absurd (List.Perm.nil_eq hperm).symm hne
  | cons m rest =>
    rw [hs] at hperm hsorted
    refine ⟨m, rfl, hperm.mem_iff.mp (List.mem_cons_self m rest), ?_⟩
    intro c hc
    have hc2 : c ∈ m :: rest := hperm.mem_iff.mpr hc
    rcases List.mem_cons.mp hc2 with heq | hmem
    · rw [heq]
    · exact List.rel_of_sorted_cons hsorted c hmem

/-- C8: over the engine's sampler chain as modelled from the spec, sampling
the chain built by appending `top_k(1)` and then `distribution_draw(seed)`
returns, for a context that has a nonempty row of logits at the index, a token
whose logit in that row is at least every logit of the row; the same token is
returned for every seed and every pseudo-random source. -/
theorem top_k_one_then_dist_returns_highest {α : Type} [LinearOrder α]
    (rng : Nat → List (Spec.llama_token_data α) → Nat)
    (defaults : llama_sampler_chain_params) (params : llama_sampler_chain_params_wrapper)
    (ctx : Spec.llama_context α) (idx : Int) (seed : Nat) (row : List α)
    (h_idx : 0 ≤ idx) (h_row : ctx.logits.get? idx.toNat = some row) (h_ne : row ≠ []) :
    ∃ (t : Nat) (x : α),
      llama_sampler_sample_wrapper (Spec.llama_sampler_sample rng)
          (top_k_one_dist_chain defaults params seed) ctx idx = some (t : Int)
        ∧ row.get? t = some x
        ∧ (∀ y ∈ row, y ≤ x)
        ∧ ∀ (seed2 : Nat) (rng2 : Nat → List (Spec.llama_token_data α) → Nat),
            llama_sampler_sample_wrapper (Spec.llama_sampler_sample rng2)
              (top_k_one_dist_chain defaults params seed2) ctx idx = some (t : Int) := by
  have key : ∀ (seed2 : Nat) (rng2 : Nat → List (Spec.llama_token_data α) → Nat),
      llama_sampler_sample_wrapper (Spec.llama_sampler_sample rng2)
          (top_k_one_dist_chain defaults params seed2) ctx idx
        = (((row.enum.map
              (fun p => ({ id := (p.1 : Int), logit := p.2 } : Spec.llama_token_data α))).insertionSort
              (fun a b => b.logit ≤ a.logit)).head?).map (fun c => c.id) := by
    intro seed2 rng2
    simp only [llama_sampler_sample_wrapper, Spec.llama_sampler_sample,
      top_k_one_dist_chain_stages, not_lt.mpr h_idx, if_false, h_row, List.foldl]
    exact top_k_one_dist_selected rng2 seed2 _
  have hne2 : row.enum.map
      (fun p => ({ id := (p.1 : Int), logit := p.2 } : Spec.llama_token_data α)) ≠ [] := by
    cases row with
    | nil => exact absurd rfl h_ne
    | cons a as => simp [List.enum, List.enumFrom]
  obtain ⟨m, hhead, hmem, hmax⟩ := insertionSort_head_highest _ hne2
  obtain ⟨⟨i, x⟩, hix, hm⟩ := List.mem_map.mp hmem
  have hget : row.get? i = some x := by
    rw [List.get?_eq_getElem?]
    exact List.mk_mem_enum_iff_getElem?.mp hix
  refine ⟨i, x, ?_, hget, ?_, ?_⟩
  · rw [key seed rng, hhead, ← hm]
    rfl
  · intro y hy
    obtain ⟨j, hj⟩ := List.getElem?_of_mem hy
    have hjm : ({ id := (j : Int), logit := y } : Spec.llama_token_data α) ∈ row.enum.map
        (fun p => ({ id := (p.1 : Int), logit := p.2 } : Spec.llama_token_data α)) :=
      List.mem_map.mpr ⟨(j, y), List.mk_mem_enum_iff_getElem?.mpr hj, rfl⟩
    have := hmax _ hjm
    rw [← hm] at this
    exact this
  · intro seed2 rng2
    rw [key seed2 rng2, hhead, ← hm]
    rfl

/-- C8, at a concrete input: on the logits `[3, 9, -2, 5]` the chain returns
token `1`, whose logit `9` is the highest. -/
theorem top_k_one_then_dist_returns_highest_witness :
    llama_sampler_sample_wrapper (Spec.llama_sampler_sample sample_rng)
        (top_k_one_dist_chain { no_perf := false } { no_perf := true } 42) sample_context 0
      = some 1
    ∧ ∃ (t : Nat) (x : Int),
      llama_sampler_sample_wrapper (Spec.llama_sampler_sample sample_rng)
          (top_k_one_dist_chain { no_perf := false } { no_perf := true } 42) sample_context 0
        = some (t : Int)
        ∧ [3, 9, -2, 5].get? t = some x
        ∧ (∀ y ∈ [3, 9, -2, 5], y ≤ x)
        ∧ ∀ (seed2 : Nat) (rng2 : Nat → List (Spec.llama_token_data Int) → Nat),
            llama_sampler_sample_wrapper (Spec.llama_sampler_sample rng2)
              (top_k_one_dist_chain { no_perf := false } { no_perf := true } seed2)
              sample_context 0 = some (t : Int) :=
  ⟨by decide,
    top_k_one_then_dist_returns_highest sample_rng { no_perf := false } { no_perf := true }
      sample_context 0 42 [3, 9, -2, 5] (by decide) (by decide) (by decide)⟩

end LlamaWrapper
